import Mathlib

/-!
Verification of the auth/RBAC slice of the FastAPICGSEM backend.

The development embeds, as executable Lean functions, the token service
(`backend/common/security/jwt.py`) and the permission gate
(`backend/common/security/rbac.py`) together with the Redis-backed
key-value store they use (`backend/database/db_redis.py`), and proves the
specified properties about them.

External collaborators (the jose JWT library, the Redis server, the user
DAO) are modelled explicitly: the store as an association list of
key/TTL/value entries, the JWT library as a record of an encode and a
decode function, and database lookups as the `Option` result they return.
-/

/-- Literal string-prefix test, computed structurally on the underlying
character lists so that concrete instances evaluate by kernel reduction. -/
def strIsPre (p s : String) : Bool := p.data.isPrefixOf s.data

instance {ε α : Type} [DecidableEq ε] [DecidableEq α] : DecidableEq (Except ε α) := fun x y =>
  match x, y with
  | .ok a, .ok b =>
    if h : a = b then .isTrue (congrArg Except.ok h)
    else .isFalse (fun hc => h (Except.ok.inj hc))
  | .ok _, .error _ => .isFalse (fun hc => Except.noConfusion hc)
  | .error _, .ok _ => .isFalse (fun hc => Except.noConfusion hc)
  | .error e, .error f =>
    if h : e = f then .isTrue (congrArg Except.error h)
    else .isFalse (fun hc => h (Except.error.inj hc))

/-- An entry of the key-value store: a key, its remaining TTL in seconds,
and the stored string value.  Models one Redis key set via SETEX. -/
structure Entry where
  key : String
  ttl : Nat
  value : String
deriving DecidableEq

/-- The key-value store (the Redis database), as an association list.
Later writes shadow earlier ones; `setex` removes the shadowed entry so a
key occurs at most once. -/
abbrev Store := List Entry

/-- Models `redis_client.get key` (with `decode_responses=True`): the value
stored under `key`, or `none` when the key is absent. -/
def Store.get (st : Store) (k : String) : Option String :=
  (st.find? (fun e => e.key == k)).map Entry.value

/-- Remaining TTL recorded for a key, used to state what `setex` stored. -/
def Store.ttlOf (st : Store) (k : String) : Option Nat :=
  (st.find? (fun e => e.key == k)).map Entry.ttl

/-- Models `redis_client.setex key seconds value`: stores `value` under
`key` with TTL `seconds`, replacing any previous entry for `key`. -/
def Store.setex (st : Store) (k : String) (t : Nat) (v : String) : Store :=
  ⟨k, t, v⟩ :: st.filter (fun e => e.key != k)

/-- Models `redis_client.delete key`. -/
def Store.delete (st : Store) (k : String) : Store :=
  st.filter (fun e => e.key != k)

/-- Models `RedisCli.delete_prefix` from `backend/database/db_redis.py` at
the call sites in `jwt.py` (which never pass `exclude`): it scans for every
key matching the glob pattern of the given string followed by a star and
deletes them all, i.e. it removes every entry whose key has the given
string as a literal prefix (the keys in this slice contain no glob
metacharacters). -/
def Store.deletePref (st : Store) (p : String) : Store :=
  st.filter (fun e => !(strIsPre p e.key))

theorem Store.get_nil (k : String) : Store.get [] k = none := rfl

theorem Store.get_cons (e : Entry) (st : Store) (k : String) :
    Store.get (e :: st) k = if e.key = k then some e.value else Store.get st k := by
  by_cases h : e.key = k
  · rw [Store.get, List.find?_cons_of_pos _ (by simp [h]), if_pos h]
    rfl
  · rw [Store.get, List.find?_cons_of_neg _ (by simp [h]), if_neg h]
    rfl

theorem Store.get_filterKey (st : Store) (g : String → Bool) (k : String) :
    Store.get (st.filter (fun e => g e.key)) k =
      if g k then Store.get st k else none := by
  induction st with
  | nil => simp [Store.get]
  | cons e rest ih =>
    by_cases hk : e.key = k
    · subst hk
      by_cases hf : g e.key <;>
        simp [List.filter_cons, hf, Store.get_cons, ih]
    · by_cases hf : g e.key <;>
        simp [List.filter_cons, hf, Store.get_cons, hk, ih]

theorem Store.get_setex (st : Store) (k k' : String) (t : Nat) (v : String) :
    Store.get (Store.setex st k t v) k' = if k' = k then some v else Store.get st k' := by
  show Store.get (⟨k, t, v⟩ :: st.filter (fun e => e.key != k)) k' = _
  rw [Store.get_cons]
  by_cases h : k' = k
  · simp [h]
  · have := Store.get_filterKey st (fun x => x != k) k'
    simp only [bne_iff_ne, ne_eq, h, not_false_eq_true, if_true, reduceIte] at this ⊢
    rw [if_neg (fun hc => h hc.symm)]
    exact this

theorem Store.get_delete (st : Store) (k k' : String) :
    Store.get (Store.delete st k) k' = if k' = k then none else Store.get st k' := by
  have := Store.get_filterKey st (fun x => x != k) k'
  show Store.get (st.filter (fun e => e.key != k)) k' = _
  rw [this]
  by_cases h : k' = k <;> simp [h]

theorem Store.get_deletePref (st : Store) (p k : String) :
    Store.get (Store.deletePref st p) k =
      if strIsPre p k then none else Store.get st k := by
  have := Store.get_filterKey st (fun x => !(strIsPre p x)) k
  show Store.get (st.filter (fun e => !(strIsPre p e.key))) k = _
  rw [this]
  by_cases h : strIsPre p k <;> simp [h]

theorem Store.ttlOf_setex_self (st : Store) (k : String) (t : Nat) (v : String) :
    Store.ttlOf (Store.setex st k t v) k = some t := by
  simp [Store.ttlOf, Store.setex, List.find?]

/-- Error kinds raised by the auth slice, from `backend/common/exception/errors.py`
(TokenError and AuthorizationError; the message is optional because both are
sometimes raised without an explicit `msg`, falling back to a default). -/
inductive AppError where
  | tokenError (msg : Option String)
  | authorizationError (msg : Option String)
deriving DecidableEq

/-- Outcome of the external `jose.jwt.decode` call at a given moment:
signature/claim verification failed (`invalid`, the JWTError case), the exp
claim lay in the past (`expired`, the ExpiredSignatureError case), or
verification succeeded with the given optional 'sub' claim. -/
inductive JwtOutcome where
  | expired
  | invalid
  | ok (sub : Option String)
deriving DecidableEq

/-- Models the external jose JWT library with a fixed secret key and
algorithm: `encode e s` is `jwt.encode({'exp': e, 'sub': s}, SECRET, ALG)`
and `decode t` the outcome of `jwt.decode(t, SECRET, algorithms=[ALG])`. -/
structure JoseLib where
  encode : Nat → String → String
  decode : String → JwtOutcome

/-- The configuration values of `backend/core/conf.py` consumed by the
auth/RBAC slice.  `TOKEN_REDIS_PRE` and `TOKEN_REFRESH_REDIS_PRE` model the
settings attributes whose names end in REDIS_PREFIX in the source. -/
structure Settings where
  TOKEN_EXPIRE_SECONDS : Nat
  TOKEN_REFRESH_EXPIRE_SECONDS : Nat
  TOKEN_REDIS_PRE : String
  TOKEN_REFRESH_REDIS_PRE : String
  TOKEN_REQUEST_PATH_EXCLUDE : List String
  PERMISSION_MODE : String
  RBAC_ROLE_MENU_EXCLUDE : List String
  RBAC_CASBIN_EXCLUDE : List (String × String)

/-- Result dataclass of `create_access_token` (`backend/common/dataclasses.py`);
the expire time is kept as the absolute Unix second. -/
structure AccessToken where
  access_token : String
  access_token_expire_time : Nat
deriving DecidableEq

/-- Result dataclass of `create_refresh_token`. -/
structure RefreshToken where
  refresh_token : String
  refresh_token_expire_time : Nat
deriving DecidableEq

/-- Result dataclass of `create_new_token`. -/
structure NewToken where
  new_access_token : String
  new_access_token_expire_time : Nat
  new_refresh_token : String
  new_refresh_token_expire_time : Nat
deriving DecidableEq

/-- The scoped store key of an access token, the f-string
`'{settings.TOKEN_REDIS_PREFIX}:{sub}:{access_token}'` of `jwt.py`. -/
def accessTokenKey (cfg : Settings) (sub token : String) : String :=
  cfg.TOKEN_REDIS_PRE ++ ":" ++ sub ++ ":" ++ token

/-- The scoped store key of a refresh token, the f-string
`'{settings.TOKEN_REFRESH_REDIS_PREFIX}:{sub}:{refresh_token}'`. -/
def refreshTokenKey (cfg : Settings) (sub token : String) : String :=
  cfg.TOKEN_REFRESH_REDIS_PRE ++ ":" ++ sub ++ ":" ++ token

/-- Embeds `create_access_token` of `backend/common/security/jwt.py`.
Time is passed explicitly: `now` is `timezone.now()` as a Unix second.  The
store is threaded explicitly; the function returns the dataclass together
with the updated store. -/
def create_access_token (cfg : Settings) (jose : JoseLib) (now : Nat)
    (st : Store) (sub : String) (multi_login : Bool) : AccessToken × Store :=
  let expire := now + cfg.TOKEN_EXPIRE_SECONDS
  let expire_seconds := cfg.TOKEN_EXPIRE_SECONDS
  let access_token := jose.encode expire sub
  let st1 := if multi_login then st else Store.deletePref st (cfg.TOKEN_REDIS_PRE ++ ":" ++ sub)
  let st2 := Store.setex st1 (accessTokenKey cfg sub access_token) expire_seconds access_token
  (⟨access_token, expire⟩, st2)

/-- Embeds `create_refresh_token` of `backend/common/security/jwt.py`,
symmetric to `create_access_token` with the refresh TTL and key namespace. -/
def create_refresh_token (cfg : Settings) (jose : JoseLib) (now : Nat)
    (st : Store) (sub : String) (multi_login : Bool) : RefreshToken × Store :=
  let expire := now + cfg.TOKEN_REFRESH_EXPIRE_SECONDS
  let expire_seconds := cfg.TOKEN_REFRESH_EXPIRE_SECONDS
  let refresh_token := jose.encode expire sub
  let st1 := if multi_login then st else Store.deletePref st (cfg.TOKEN_REFRESH_REDIS_PRE ++ ":" ++ sub)
  let st2 := Store.setex st1 (refreshTokenKey cfg sub refresh_token) expire_seconds refresh_token
  (⟨refresh_token, expire⟩, st2)

/-- Embeds `create_new_token` of `backend/common/security/jwt.py`.  The
guard mirrors `if not redis_refresh_token or redis_refresh_token != refresh_token`:
a missing key or an empty stored string is falsy in Python, and a stored
value different from the supplied refresh token also fails. -/
def create_new_token (cfg : Settings) (jose : JoseLib) (now : Nat) (st : Store)
    (sub token refresh_token : String) (multi_login : Bool) :
    Except AppError (NewToken × Store) :=
  let redis_refresh_token := Store.get st (refreshTokenKey cfg sub refresh_token)
  if redis_refresh_token = none ∨ redis_refresh_token = some "" ∨
      redis_refresh_token ≠ some refresh_token then
    .error (.tokenError (some "Refresh Token has expired"))
  else
    let ats := create_access_token cfg jose now st sub multi_login
    let rts := create_refresh_token cfg jose now ats.2 sub multi_login
    let token_key := accessTokenKey cfg sub token
    let refresh_token_key := refreshTokenKey cfg sub refresh_token
    let st3 := Store.delete (Store.delete rts.2 token_key) refresh_token_key
    .ok (⟨ats.1.access_token, ats.1.access_token_expire_time,
          rts.1.refresh_token, rts.1.refresh_token_expire_time⟩, st3)

/-- Accumulate the value of a decimal digit string; `none` as soon as a
non-digit character appears. -/
def pyIntDigits : List Char → Nat → Option Nat
  | [], acc => some acc
  | c :: cs, acc =>
    if c.isDigit then pyIntDigits cs (acc * 10 + (c.toNat - 48)) else none

/-- Models the Python built-in `int()` applied to a string: an optional
sign followed by one or more decimal digits parses to that integer, and
`int` raises ValueError on anything else (the raise is `none` here).
Python additionally strips surrounding whitespace and allows underscores
between digits; neither occurs in the claims of interest and they are not
modelled. -/
def pyIntOfString (s : String) : Option Int :=
  match s.data with
  | [] => none
  | '-' :: [] => none
  | '-' :: cs => (pyIntDigits cs 0).map (fun n => -(n : Int))
  | '+' :: [] => none
  | '+' :: cs => (pyIntDigits cs 0).map (fun n => (n : Int))
  | cs => (pyIntDigits cs 0).map (fun n => (n : Int))

/-- Models the Python expression `int(payload.get('sub'))` in `jwt_decode`:
a missing claim is `None` and `int(None)` raises TypeError; a string is
parsed with the Python `int` semantics above.  A raise is `none`; both
exceptions are caught by the bare `except (JWTError, Exception)` clause of
the source. -/
def pyIntOfSub : Option String → Option Int
  | none => none
  | some s => pyIntOfString s

/-- Embeds `jwt_decode` of `backend/common/security/jwt.py`, with the
external verification outcome supplied by the `JoseLib` model.  A
`TokenError` raised inside the `try` block (the `if not user_id` branch) is
itself caught by `except (JWTError, Exception)` and re-raised as
`TokenError(msg='Invalid token')`, so the observable error is the same. -/
def jwt_decode (jose : JoseLib) (token : String) : Except AppError Int :=
  match jose.decode token with
  | .expired => .error (.tokenError (some "Token has expired"))
  | .invalid => .error (.tokenError (some "Invalid token"))
  | .ok sub =>
    match pyIntOfSub sub with
    | none => .error (.tokenError (some "Invalid token"))
    | some user_id =>
      if user_id = 0 then .error (.tokenError (some "Invalid token"))
      else .ok user_id

/-- Embeds `jwt_authentication` of `backend/common/security/jwt.py`: decode
the token, then require the scoped key to be present in the store (a stored
empty string is Python-falsy and also rejected). -/
def jwt_authentication (cfg : Settings) (jose : JoseLib) (st : Store)
    (token : String) : Except AppError Int :=
  match jwt_decode jose token with
  | .error e => .error e
  | .ok user_id =>
    let key := accessTokenKey cfg (toString user_id) token
    match Store.get st key with
    | none => .error (.tokenError (some "Token has expired"))
    | some token_verify =>
      if token_verify = "" then .error (.tokenError (some "Token has expired"))
      else .ok user_id

/-- Department row fields read by `get_current_user`
(`user.dept.status`, `user.dept.del_flag`). -/
structure Dept where
  status : Nat
  del_flag : Bool
deriving DecidableEq

/-- Menu row fields read by the permission gate: an integer status and the
comma-separated permission-code string `perms`. -/
structure Menu where
  status : Nat
  perms : String
deriving DecidableEq

/-- Role row fields read by the auth slice: status, the data permission
scope (1 is the open scope), and the menus assigned to the role. -/
structure Role where
  status : Nat
  data_scope : Nat
  menus : List Menu
deriving DecidableEq

/-- User row, with the relations loaded by `user_dao.get_with_relation`.
The `dept` relation is read by the source only when `dept_id` is truthy, so
it is carried unconditionally here and its value is irrelevant otherwise. -/
structure User where
  status : Nat
  is_superuser : Bool
  is_staff : Bool
  uuid : String
  dept_id : Option Nat
  dept : Dept
  roles : List Role
deriving DecidableEq

/-- Python truthiness of the Optional[int] column `dept_id`: both None and
0 are falsy. -/
def optIdTruthy : Option Nat → Bool
  | none => false
  | some n => n != 0

/-- Embeds `get_current_user` of `backend/common/security/jwt.py`.  The DAO
lookup is an external collaborator, so the function takes its result: the
found user, or `none`.  The source nests the two department checks under
`if user.dept_id:`; that nesting is written here as a conjunction in each
guard, which preserves the check order. -/
def get_current_user (user : Option User) : Except AppError User :=
  match user with
  | none => .error (.tokenError (some "Invalid token"))
  | some user =>
    if user.status = 0 then
      .error (.authorizationError (some "User has been locked, please contact the system administrator"))
    else if optIdTruthy user.dept_id ∧ user.dept.status = 0 then
      .error (.authorizationError (some "User\x27s department has been locked"))
    else if optIdTruthy user.dept_id ∧ user.dept.del_flag then
      .error (.authorizationError (some "User\x27s department has been deleted"))
    else if user.roles ≠ [] ∧ (user.roles.map Role.status).all (fun s => s == 0) then
      .error (.authorizationError (some "User\x27s roles have been locked"))
    else .ok user

/-- Models the request object fields read by the auth slice:
`request.url.path`, `request.method`, `request.auth.scopes`,
`request.user` and `getattr(request.state, 'permission', None)`. -/
structure RequestModel where
  path : String
  method : String
  auth_scopes : List String
  user : User
  state_permission : Option String
deriving DecidableEq

/-- Embeds `superuser_verify` of `backend/common/security/jwt.py`: raise
`AuthorizationError` (with its default message) unless the requesting user
is both superuser and staff; otherwise return the superuser flag. -/
def superuser_verify (request : RequestModel) : Except AppError Bool :=
  let superuser := request.user.is_superuser
  if ¬ superuser ∨ ¬ request.user.is_staff then .error (.authorizationError none)
  else .ok superuser

/-- Modelled from the spec: `backend/common/enums.py` is not under src/.
MethodType is the HTTP request-method string enum compared against
`request.method`; only its GET member is used by the permission gate here. -/
def MethodType.GET : String := "GET"

/-- Modelled from the spec: the OPTIONS member of the MethodType enum. -/
def MethodType.OPTIONS : String := "OPTIONS"

/-- Modelled from the spec: StatusType of `backend/common/enums.py`; its
`enable` member is the enabled status value (1), used to select the enabled
menus whose permission codes count. -/
def StatusType.enable : Nat := 1

/-- Split a character list at commas, carrying the characters of the
current piece in reverse. -/
def splitCommaAux : List Char → List Char → List String
  | [], acc => [String.mk acc.reverse]
  | c :: cs, acc =>
    if c = ',' then String.mk acc.reverse :: splitCommaAux cs []
    else splitCommaAux cs (c :: acc)

/-- Models the Python expression `menu.perms.split(',')`: split the string
at every comma; the empty string splits to a list holding one empty
string. -/
def splitComma (s : String) : List String := splitCommaAux s.data []

/-- The `allow_perms` list built by `RBAC.rbac_verify` in role-menu mode:
for each of the user roles, for each menu of the role, if the menu status
is the enabled value, extend the list with the comma-split codes of the
menu. -/
def allowPermsOf (user_roles : List Role) : List String :=
  user_roles.foldl (fun acc role =>
    role.menus.foldl (fun acc2 menu =>
      if menu.status == StatusType.enable then acc2 ++ splitComma menu.perms
      else acc2) acc) []

/-- Embeds `RBAC.rbac_verify` of `backend/common/security/rbac.py`.  The
casbin enforcer is an external collaborator passed as the `enforce`
function.  The management-operation guard keeps the tautological source
disjunction (`method != MethodType.GET or method != MethodType.OPTIONS`)
verbatim; the nested `if not request.user.is_staff` becomes a conjunct. -/
def rbac_verify (cfg : Settings) (enforce : String → String → String → Bool)
    (request : RequestModel) : Except AppError Unit :=
  if request.path ∈ cfg.TOKEN_REQUEST_PATH_EXCLUDE then .ok ()
  else if request.auth_scopes = [] then .error (.tokenError none)
  else if request.user.is_superuser then .ok ()
  else if request.user.roles = [] then
    .error (.authorizationError (some "User has not been assigned a role, authorization failed"))
  else if ¬ (request.user.roles.any fun role => role.menus.length > 0) then
    .error (.authorizationError (some "User\x27s roles have not been assigned menus, authorization failed"))
  else if (request.method ≠ MethodType.GET ∨ request.method ≠ MethodType.OPTIONS) ∧
      ¬ request.user.is_staff then
    .error (.authorizationError (some "This user is prohibited from backend management operations"))
  else if request.user.roles.any (fun role => role.data_scope == 1) then .ok ()
  else if cfg.PERMISSION_MODE = "role-menu" then
    match request.state_permission with
    | none => .ok ()
    | some perm =>
      if perm = "" then .ok ()
      else if perm ∈ cfg.RBAC_ROLE_MENU_EXCLUDE then .ok ()
      else if perm ∈ allowPermsOf request.user.roles then .ok ()
      else .error (.authorizationError none)
  else
    if (request.method, request.path) ∈ cfg.RBAC_CASBIN_EXCLUDE then .ok ()
    else if enforce request.user.uuid request.path request.method then .ok ()
    else .error (.authorizationError none)

/-- Concrete configuration used by the closed witness instances. -/
def cfgW : Settings := ⟨3600, 7200, "fba:token", "fba:refresh", [], "role-menu", [], []⟩

/-- Concrete JWT library model used by the closed witness instances: a
token is its exp claim and its sub claim joined by a dot, and decode
recovers the claims of exactly the tokens that occur in the instances. -/
def joseW : JoseLib where
  encode e s := toString e ++ "." ++ s
  decode t :=
    if t = "3600.7" then .ok (some "7")
    else if t = "3601.7" then .ok (some "7")
    else if t = "7200.7" then .ok (some "7")
    else if t = "z0" then .ok (some "0")
    else if t = "zx" then .ok (some "x")
    else if t = "znone" then .ok none
    else .invalid

/-- Concrete casbin enforcer stand-in for the witness instances (never
reached by them). -/
def enforceW : String → String → String → Bool := fun _ _ _ => true

/-- C1: for every token, Authenticate (`jwt_authentication`) first decodes
the token, and succeeds with a subject id only if the scoped key
`TOKEN_REDIS_PREFIX:subject:token` is present in the store; whenever that
key is absent, it fails with a TokenError even when the token decodes
successfully (i.e. is cryptographically valid and unexpired). -/
theorem C1_authenticate_requires_store_key (cfg : Settings) (jose : JoseLib)
    (st : Store) (token : String) :
    (∀ user_id, jwt_authentication cfg jose st token = .ok user_id →
      jwt_decode jose token = .ok user_id ∧
      (Store.get st (accessTokenKey cfg (toString user_id) token)).isSome = true) ∧
    (∀ user_id, jwt_decode jose token = .ok user_id →
      Store.get st (accessTokenKey cfg (toString user_id) token) = none →
      jwt_authentication cfg jose st token =
        .error (.tokenError (some "Token has expired"))) := by
  constructor
  · intro uid h
    unfold jwt_authentication at h
    cases hd : jwt_decode jose token with
    | error e => rw [hd] at h; simp at h
    | ok v =>
      rw [hd] at h
      simp only [] at h
      cases hg : Store.get st (accessTokenKey cfg (toString v) token) with
      | none => rw [hg] at h; simp at h
      | some s =>
        rw [hg] at h
        simp only [] at h
        by_cases hs : s = ""
        · rw [if_pos hs] at h; simp at h
        · rw [if_neg hs] at h
          cases h
          exact ⟨rfl, by rw [hg]; rfl⟩
  · intro uid hd hg
    unfold jwt_authentication
    rw [hd]
    simp only []
    rw [hg]

/-- C1 witness: with an empty store, the decodable token "3600.7" (subject
7) is rejected with a TokenError. -/
theorem C1_witness :
    jwt_decode joseW "3600.7" = .ok 7 ∧
    Store.get ([] : Store) (accessTokenKey cfgW (toString (7 : Int)) "3600.7") = none ∧
    jwt_authentication cfgW joseW [] "3600.7" =
      .error (.tokenError (some "Token has expired")) :=
  ⟨by decide, by decide,
    (C1_authenticate_requires_store_key cfgW joseW [] "3600.7").2 7 (by decide) (by decide)⟩

/-- C4: token rotation (`create_new_token`) fails with the TokenError
"Refresh Token has expired" whenever the stored value under the scoped
refresh key is absent or differs from the supplied refresh token; it never
succeeds in that case. -/
theorem C4_stale_refresh_always_fails (cfg : Settings) (jose : JoseLib)
    (now : Nat) (st : Store) (sub token refresh_token : String)
    (multi_login : Bool)
    (h : Store.get st (refreshTokenKey cfg sub refresh_token) = none ∨
         Store.get st (refreshTokenKey cfg sub refresh_token) ≠ some refresh_token) :
    create_new_token cfg jose now st sub token refresh_token multi_login =
      .error (.tokenError (some "Refresh Token has expired")) := by
  unfold create_new_token
  rcases h with h | h
  · rw [if_pos (Or.inl h)]
  · rw [if_pos (Or.inr (Or.inr h))]

/-- C4 witness: rotating with a refresh token whose scoped key is absent
from the store fails with the TokenError. -/
theorem C4_witness :
    Store.get ([] : Store) (refreshTokenKey cfgW "7" "7200.7") = none ∧
    create_new_token cfgW joseW 0 [] "7" "3600.7" "7200.7" true =
      .error (.tokenError (some "Refresh Token has expired")) :=
  ⟨by decide,
    C4_stale_refresh_always_fails cfgW joseW 0 [] "7" "3600.7" "7200.7" true
      (Or.inl (by decide))⟩

/-- C8: with a present auth scope, a superuser passes `rbac_verify` for
every configuration, path, method, enforcer and role set (including zero
roles), because the superuser exemption precedes every role, menu, staff,
data-scope and permission-code check. -/
theorem C8_superuser_always_allowed (cfg : Settings)
    (enforce : String → String → String → Bool) (request : RequestModel)
    (hscopes : request.auth_scopes ≠ [])
    (hsuper : request.user.is_superuser = true) :
    rbac_verify cfg enforce request = .ok () := by
  unfold rbac_verify
  by_cases hp : request.path ∈ cfg.TOKEN_REQUEST_PATH_EXCLUDE
  · rw [if_pos hp]
  · rw [if_neg hp, if_neg hscopes, if_pos hsuper]

/-- C8 witness: a superuser with zero roles and a POST request to an
arbitrary path passes the permission gate. -/
theorem C8_witness :
    (["authenticated"] : List String) ≠ [] ∧
    rbac_verify cfgW enforceW
      ⟨"/api/v1/sys/users", "POST", ["authenticated"],
        ⟨1, true, false, "uuid-su", none, ⟨1, false⟩, []⟩, some "sys:user:add"⟩ = .ok () :=
  ⟨by decide,
    C8_superuser_always_allowed cfgW enforceW
      ⟨"/api/v1/sys/users", "POST", ["authenticated"],
        ⟨1, true, false, "uuid-su", none, ⟨1, false⟩, []⟩, some "sys:user:add"⟩
      (by decide) (by decide)⟩

/-- C9: `superuser_verify` raises AuthorizationError unless the requesting
user has both the superuser flag and the staff flag set; when both are set
it returns True. -/
theorem C9_superuser_verify_needs_both_flags (request : RequestModel) :
    (request.user.is_superuser = true → request.user.is_staff = true →
      superuser_verify request = .ok true) ∧
    (request.user.is_superuser = false ∨ request.user.is_staff = false →
      superuser_verify request = .error (.authorizationError none)) := by
  constructor
  · intro hs hf
    unfold superuser_verify
    rw [if_neg]
    · rw [hs]
    · rw [hs, hf]; simp
  · intro h
    unfold superuser_verify
    rw [if_pos]
    rcases h with h | h
    · exact Or.inl (by rw [h]; simp)
    · exact Or.inr (by rw [h]; simp)

/-- C9 witness: a superuser who is not staff is rejected. -/
theorem C9_witness :
    superuser_verify
      ⟨"/api/v1/sys/users", "GET", ["authenticated"],
        ⟨1, true, false, "uuid-su2", none, ⟨1, false⟩, []⟩, none⟩ =
      .error (.authorizationError none) :=
  (C9_superuser_verify_needs_both_flags
    ⟨"/api/v1/sys/users", "GET", ["authenticated"],
      ⟨1, true, false, "uuid-su2", none, ⟨1, false⟩, []⟩, none⟩).2 (Or.inr rfl)

/-- C10: `jwt_decode` returns the subject as an integer; when the external
verification succeeds but the sub claim is missing, is the string "0", or
is not an integer string, it fails with TokenError "Invalid token"; any
subject id it returns is nonzero. -/
theorem C10_decode_sub_is_nonzero_int (jose : JoseLib) (token : String) :
    (jose.decode token = .ok none →
      jwt_decode jose token = .error (.tokenError (some "Invalid token"))) ∧
    (jose.decode token = .ok (some "0") →
      jwt_decode jose token = .error (.tokenError (some "Invalid token"))) ∧
    (∀ s, jose.decode token = .ok (some s) → pyIntOfString s = none →
      jwt_decode jose token = .error (.tokenError (some "Invalid token"))) ∧
    (∀ n, jwt_decode jose token = .ok n → n ≠ 0) := by
  refine ⟨?_, ?_, ?_, ?_⟩
  · intro h
    unfold jwt_decode
    rw [h]
    rfl
  · intro h
    unfold jwt_decode
    rw [h]
    rfl
  · intro s h hp
    unfold jwt_decode
    rw [h]
    simp only [pyIntOfSub]
    rw [hp]
  · intro n h
    unfold jwt_decode at h
    cases hd : jose.decode token with
    | expired => rw [hd] at h; simp at h
    | invalid => rw [hd] at h; simp at h
    | ok sub =>
      rw [hd] at h
      simp only [] at h
      cases hp : pyIntOfSub sub with
      | none => rw [hp] at h; simp at h
      | some v =>
        rw [hp] at h
        simp only [] at h
        by_cases hv : v = 0
        · rw [if_pos hv] at h; simp at h
        · rw [if_neg hv] at h
          cases h
          exact hv

/-- C10 witness: tokens whose sub claim is "0", non-numeric, or missing
are all rejected with TokenError "Invalid token". -/
theorem C10_witness :
    joseW.decode "z0" = .ok (some "0") ∧
    jwt_decode joseW "z0" = .error (.tokenError (some "Invalid token")) :=
  ⟨by decide, (C10_decode_sub_is_nonzero_int joseW "z0").2.1 (by decide)⟩

/-- C7: user resolution (`get_current_user`) applies its five fail-fast
checks in a fixed order, each with its own distinct error: user not found,
user status disabled, department disabled (only when the user has a
department), department soft-deleted (only when the user has a department),
all roles disabled (only when the user has roles); in particular a user
with disabled status always fails with the locked-account error regardless
of department or role state, and a user passing every check is returned. -/
theorem C7_resolution_check_order :
    (get_current_user none = .error (.tokenError (some "Invalid token"))) ∧
    (∀ u : User, u.status = 0 →
      get_current_user (some u) =
        .error (.authorizationError
          (some "User has been locked, please contact the system administrator"))) ∧
    (∀ u : User, u.status ≠ 0 → optIdTruthy u.dept_id = true → u.dept.status = 0 →
      get_current_user (some u) =
        .error (.authorizationError (some "User\x27s department has been locked"))) ∧
    (∀ u : User, u.status ≠ 0 → optIdTruthy u.dept_id = true → u.dept.status ≠ 0 →
      u.dept.del_flag = true →
      get_current_user (some u) =
        .error (.authorizationError (some "User\x27s department has been deleted"))) ∧
    (∀ u : User, u.status ≠ 0 →
      (optIdTruthy u.dept_id = true → u.dept.status ≠ 0 ∧ u.dept.del_flag = false) →
      u.roles ≠ [] → (∀ r ∈ u.roles, r.status = 0) →
      get_current_user (some u) =
        .error (.authorizationError (some "User\x27s roles have been locked"))) ∧
    (∀ u : User, u.status ≠ 0 →
      (optIdTruthy u.dept_id = true → u.dept.status ≠ 0 ∧ u.dept.del_flag = false) →
      (u.roles = [] ∨ ∃ r ∈ u.roles, r.status ≠ 0) →
      get_current_user (some u) = .ok u) := by
  refine ⟨rfl, ?_, ?_, ?_, ?_, ?_⟩
  · intro u h
    simp only [get_current_user]
    rw [if_pos h]
  · intro u hs hd hds
    simp only [get_current_user]
    rw [if_neg hs, if_pos ⟨hd, hds⟩]
  · intro u hs hd hds hdel
    simp only [get_current_user]
    rw [if_neg hs, if_neg (fun hc => hds hc.2), if_pos ⟨hd, hdel⟩]
  · intro u hs hdept hr hall
    simp only [get_current_user]
    rw [if_neg hs,
        if_neg (fun hc => (hdept hc.1).1 hc.2),
        if_neg (fun hc => by rw [(hdept hc.1).2] at hc; exact Bool.false_ne_true hc.2),
        if_pos ⟨hr, by
          simp only [List.all_eq_true, List.mem_map]
          rintro s ⟨r, hrm, rfl⟩
          simpa using hall r hrm⟩]
  · intro u hs hdept hroles
    simp only [get_current_user]
    rw [if_neg hs,
        if_neg (fun hc => (hdept hc.1).1 hc.2),
        if_neg (fun hc => by rw [(hdept hc.1).2] at hc; exact Bool.false_ne_true hc.2),
        if_neg (fun hc => by
          rcases hroles with h | ⟨r, hrm, hrs⟩
          · exact hc.1 h
          · have := hc.2
            simp only [List.all_eq_true, List.mem_map] at this
            exact hrs (by simpa using this (r.status) ⟨r, hrm, rfl⟩))]

/-- C7 witness: a status-disabled user whose department is disabled and
deleted and whose roles are all disabled still fails with the
locked-account error, showing the status check precedes the rest. -/
theorem C7_witness :
    get_current_user (some ⟨0, false, false, "uuid-locked", some 3, ⟨0, true⟩, [⟨0, 0, []⟩]⟩) =
      .error (.authorizationError
        (some "User has been locked, please contact the system administrator")) :=
  C7_resolution_check_order.2.1 ⟨0, false, false, "uuid-locked", some 3, ⟨0, true⟩, [⟨0, 0, []⟩]⟩ rfl

theorem strIsPre_append (p q : String) : strIsPre p (p ++ q) = true := by
  simp [strIsPre]

theorem strAppend_right_inj {a b c : String} (h : a ++ b = a ++ c) : b = c := by
  have hd : a.data ++ b.data = a.data ++ c.data := by
    simpa using congrArg String.data h
  exact String.ext (List.append_cancel_left hd)

theorem key_split (p s t : String) :
    p ++ ":" ++ s ++ ":" ++ t = (p ++ ":" ++ s) ++ (":" ++ t) := by
  simp [String.append_assoc]

theorem accessTokenKey_inj (cfg : Settings) (sub : String) {t1 t2 : String}
    (h : t1 ≠ t2) : accessTokenKey cfg sub t1 ≠ accessTokenKey cfg sub t2 := by
  intro hc
  rw [accessTokenKey, accessTokenKey, key_split, key_split] at hc
  exact h (strAppend_right_inj (strAppend_right_inj hc))

theorem refreshTokenKey_inj (cfg : Settings) (sub : String) {t1 t2 : String}
    (h : t1 ≠ t2) : refreshTokenKey cfg sub t1 ≠ refreshTokenKey cfg sub t2 := by
  intro hc
  rw [refreshTokenKey, refreshTokenKey, key_split, key_split] at hc
  exact h (strAppend_right_inj (strAppend_right_inj hc))

theorem strIsPre_accessTokenKey (cfg : Settings) (sub t : String) :
    strIsPre (cfg.TOKEN_REDIS_PRE ++ ":" ++ sub) (accessTokenKey cfg sub t) = true := by
  rw [accessTokenKey, key_split]
  exact strIsPre_append _ _

/-- C2: issuing an access token with multi-session disabled deletes every
previously stored access-token key under the subject key-space
`TOKEN_REDIS_PREFIX:subject` before storing the new token under its scoped
key with TTL equal to the access lifetime; consequently, after a second
issuance for the same subject, authentication of the first token fails
with a TokenError while the second token authenticates to the subject. -/
theorem C2_single_session_second_issue_revokes_first (cfg : Settings)
    (jose : JoseLib) (st0 : Store) (uid : Int) (sub : String)
    (now1 now2 : Nat) (r1 r2 : AccessToken) (st1 st2 : Store)
    (hsub : sub = toString uid)
    (h1 : create_access_token cfg jose now1 st0 sub false = (r1, st1))
    (h2 : create_access_token cfg jose now2 st1 sub false = (r2, st2))
    (hne : r1.access_token ≠ r2.access_token)
    (hdec1 : jwt_decode jose r1.access_token = .ok uid)
    (hdec2 : jwt_decode jose r2.access_token = .ok uid)
    (hn2 : r2.access_token ≠ "") :
    (∀ k, strIsPre (cfg.TOKEN_REDIS_PRE ++ ":" ++ sub) k = true →
      k ≠ accessTokenKey cfg sub r2.access_token → Store.get st2 k = none) ∧
    Store.get st2 (accessTokenKey cfg sub r2.access_token) = some r2.access_token ∧
    Store.ttlOf st2 (accessTokenKey cfg sub r2.access_token) =
      some cfg.TOKEN_EXPIRE_SECONDS ∧
    jwt_authentication cfg jose st2 r1.access_token =
      .error (.tokenError (some "Token has expired")) ∧
    jwt_authentication cfg jose st2 r2.access_token = .ok uid := by
  unfold create_access_token at h1 h2
  simp only [Bool.false_eq_true, if_false] at h1 h2
  rw [Prod.mk.injEq] at h1 h2
  obtain ⟨hr1, hst1⟩ := h1
  obtain ⟨hr2, hst2⟩ := h2
  have ht1 : r1.access_token = jose.encode (now1 + cfg.TOKEN_EXPIRE_SECONDS) sub := by
    rw [← hr1]
  have ht2 : r2.access_token = jose.encode (now2 + cfg.TOKEN_EXPIRE_SECONDS) sub := by
    rw [← hr2]
  have hG1 : ∀ k, strIsPre (cfg.TOKEN_REDIS_PRE ++ ":" ++ sub) k = true →
      k ≠ accessTokenKey cfg sub r2.access_token → Store.get st2 k = none := by
    intro k hkp hkne
    rw [← hst2, Store.get_setex, if_neg (by rw [← ht2]; exact hkne),
        Store.get_deletePref, if_pos hkp]
  have hG2 : Store.get st2 (accessTokenKey cfg sub r2.access_token) =
      some r2.access_token := by
    rw [ht2, ← hst2, Store.get_setex, if_pos rfl]
  have hG3 : Store.ttlOf st2 (accessTokenKey cfg sub r2.access_token) =
      some cfg.TOKEN_EXPIRE_SECONDS := by
    rw [ht2, ← hst2]
    exact Store.ttlOf_setex_self _ _ _ _
  refine ⟨hG1, hG2, hG3, ?_, ?_⟩
  · unfold jwt_authentication
    rw [hdec1]
    simp only []
    rw [← hsub]
    rw [hG1 (accessTokenKey cfg sub r1.access_token)
        (strIsPre_accessTokenKey cfg sub r1.access_token)
        (accessTokenKey_inj cfg sub hne)]
  · unfold jwt_authentication
    rw [hdec2]
    simp only []
    rw [← hsub, hG2]
    simp only []
    rw [if_neg hn2]

/-- C2 witness: subject 7 with multi-session disabled; after issuing a
second access token, the first no longer authenticates and the second
authenticates to 7. -/
theorem C2_witness :
    jwt_authentication cfgW joseW [⟨"fba:token:7:3601.7", 3600, "3601.7"⟩] "3600.7" =
      .error (.tokenError (some "Token has expired")) ∧
    jwt_authentication cfgW joseW [⟨"fba:token:7:3601.7", 3600, "3601.7"⟩] "3601.7" =
      .ok 7 := by
  have h := C2_single_session_second_issue_revokes_first cfgW joseW [] 7 "7" 0 1
    ⟨"3600.7", 3600⟩ ⟨"3601.7", 3601⟩
    [⟨"fba:token:7:3600.7", 3600, "3600.7"⟩] [⟨"fba:token:7:3601.7", 3600, "3601.7"⟩]
    (by decide) (by decide) (by decide) (by decide) (by decide) (by decide) (by decide)
  exact ⟨h.2.2.2.1, h.2.2.2.2⟩

/-- C5: rotation with a currently stored (matching, non-empty) refresh
token succeeds: it returns and stores a fresh access token and a fresh
refresh token — two distinct tokens, each present under its own scoped key
afterwards — and deletes the key of the old access token and the key of
the old refresh token.  The freshness side conditions say that the newly
encoded tokens and their keys do not collide with the old ones or with
each other. -/
theorem C5_rotation_success (cfg : Settings) (jose : JoseLib) (now : Nat)
    (st : Store) (sub token refresh_token : String) (multi_login : Bool)
    (na nr : String)
    (hstored : Store.get st (refreshTokenKey cfg sub refresh_token) = some refresh_token)
    (hrempty : refresh_token ≠ "")
    (hna : na = jose.encode (now + cfg.TOKEN_EXPIRE_SECONDS) sub)
    (hnr : nr = jose.encode (now + cfg.TOKEN_REFRESH_EXPIRE_SECONDS) sub)
    (hdistinct : na ≠ nr)
    (hfreshA : na ≠ token)
    (hfreshR : nr ≠ refresh_token)
    (hk1 : accessTokenKey cfg sub na ≠ refreshTokenKey cfg sub refresh_token)
    (hk2 : accessTokenKey cfg sub na ≠ refreshTokenKey cfg sub nr)
    (hk3 : refreshTokenKey cfg sub nr ≠ accessTokenKey cfg sub token)
    (hpre : strIsPre (cfg.TOKEN_REFRESH_REDIS_PRE ++ ":" ++ sub)
      (accessTokenKey cfg sub na) = false) :
    ∃ st3, create_new_token cfg jose now st sub token refresh_token multi_login =
        .ok (⟨na, now + cfg.TOKEN_EXPIRE_SECONDS,
              nr, now + cfg.TOKEN_REFRESH_EXPIRE_SECONDS⟩, st3) ∧
      na ≠ nr ∧
      Store.get st3 (accessTokenKey cfg sub na) = some na ∧
      Store.get st3 (refreshTokenKey cfg sub nr) = some nr ∧
      Store.get st3 (accessTokenKey cfg sub token) = none ∧
      Store.get st3 (refreshTokenKey cfg sub refresh_token) = none := by
  subst hna
  subst hnr
  unfold create_new_token
  simp only []
  rw [hstored, if_neg (by simp [hrempty])]
  simp only [create_access_token, create_refresh_token]
  cases multi_login with
  | false =>
    simp only [Bool.false_eq_true, if_false]
    refine ⟨_, rfl, hdistinct, ?_, ?_, ?_, ?_⟩
    · rw [Store.get_delete, if_neg hk1,
          Store.get_delete, if_neg (accessTokenKey_inj cfg sub hfreshA),
          Store.get_setex, if_neg hk2,
          Store.get_deletePref, hpre, if_neg (by simp),
          Store.get_setex, if_pos rfl]
    · rw [Store.get_delete, if_neg (refreshTokenKey_inj cfg sub hfreshR),
          Store.get_delete, if_neg hk3,
          Store.get_setex, if_pos rfl]
    · rw [Store.get_delete]
      by_cases hh : accessTokenKey cfg sub token = refreshTokenKey cfg sub refresh_token
      · rw [if_pos hh]
      · rw [if_neg hh, Store.get_delete, if_pos rfl]
    · rw [Store.get_delete, if_pos rfl]
  | true =>
    simp only [if_true]
    refine ⟨_, rfl, hdistinct, ?_, ?_, ?_, ?_⟩
    · rw [Store.get_delete, if_neg hk1,
          Store.get_delete, if_neg (accessTokenKey_inj cfg sub hfreshA),
          Store.get_setex, if_neg hk2,
          Store.get_setex, if_pos rfl]
    · rw [Store.get_delete, if_neg (refreshTokenKey_inj cfg sub hfreshR),
          Store.get_delete, if_neg hk3,
          Store.get_setex, if_pos rfl]
    · rw [Store.get_delete]
      by_cases hh : accessTokenKey cfg sub token = refreshTokenKey cfg sub refresh_token
      · rw [if_pos hh]
      · rw [if_neg hh, Store.get_delete, if_pos rfl]
    · rw [Store.get_delete, if_pos rfl]

/-- C5 witness: subject 7 holds the stored refresh token "oldR"; rotation
succeeds, stores the two fresh distinct tokens and deletes both old keys. -/
theorem C5_witness :
    ∃ st3, create_new_token cfgW joseW 0 [⟨"fba:refresh:7:oldR", 7200, "oldR"⟩]
        "7" "oldA" "oldR" false =
        .ok (⟨"3600.7", 3600, "7200.7", 7200⟩, st3) ∧
      ("3600.7" : String) ≠ "7200.7" ∧
      Store.get st3 (accessTokenKey cfgW "7" "3600.7") = some "3600.7" ∧
      Store.get st3 (refreshTokenKey cfgW "7" "7200.7") = some "7200.7" ∧
      Store.get st3 (accessTokenKey cfgW "7" "oldA") = none ∧
      Store.get st3 (refreshTokenKey cfgW "7" "oldR") = none :=
  C5_rotation_success cfgW joseW 0 [⟨"fba:refresh:7:oldR", 7200, "oldR"⟩]
    "7" "oldA" "oldR" false "3600.7" "7200.7"
    (by decide) (by decide) (by decide) (by decide) (by decide) (by decide)
    (by decide) (by decide) (by decide) (by decide) (by decide)

theorem menuFold_acc (menus : List Menu) (acc : List String) :
    menus.foldl (fun acc2 menu =>
      if menu.status == StatusType.enable then acc2 ++ splitComma menu.perms
      else acc2) acc =
    acc ++ menus.foldl (fun acc2 menu =>
      if menu.status == StatusType.enable then acc2 ++ splitComma menu.perms
      else acc2) [] := by
  induction menus generalizing acc with
  | nil => simp
  | cons m ms ih =>
    simp only [List.foldl_cons]
    by_cases h : m.status == StatusType.enable
    · rw [if_pos h, if_pos h, ih (acc ++ splitComma m.perms), ih (List.nil ++ splitComma m.perms)]
      simp [List.append_assoc]
    · rw [if_neg h, if_neg h]
      exact ih acc

theorem roleFold_acc (roles : List Role) (acc : List String) :
    roles.foldl (fun acc role =>
      role.menus.foldl (fun acc2 menu =>
        if menu.status == StatusType.enable then acc2 ++ splitComma menu.perms
        else acc2) acc) acc =
    acc ++ allowPermsOf roles := by
  induction roles generalizing acc with
  | nil => simp [allowPermsOf]
  | cons r rs ih =>
    simp only [allowPermsOf, List.foldl_cons]
    rw [menuFold_acc r.menus acc, menuFold_acc r.menus []]
    simp only [List.nil_append]
    rw [ih, ih]
    simp [List.append_assoc]

theorem mem_menuFold (x : String) (menus : List Menu) :
    x ∈ menus.foldl (fun acc2 menu =>
      if menu.status == StatusType.enable then acc2 ++ splitComma menu.perms
      else acc2) [] ↔
    ∃ m ∈ menus, m.status = StatusType.enable ∧ x ∈ splitComma m.perms := by
  induction menus with
  | nil => simp
  | cons m ms ih =>
    simp only [List.foldl_cons]
    rw [menuFold_acc]
    by_cases h : m.status == StatusType.enable
    · rw [if_pos h]
      simp only [List.nil_append, List.mem_append, ih]
      constructor
      · rintro (hx | ⟨m', hm', hs', hx⟩)
        · exact ⟨m, List.mem_cons_self m ms, by simpa using h, hx⟩
        · exact ⟨m', List.mem_cons_of_mem m hm', hs', hx⟩
      · rintro ⟨m', hm', hs', hx⟩
        rcases List.mem_cons.mp hm' with rfl | hm'
        · exact Or.inl hx
        · exact Or.inr ⟨m', hm', hs', hx⟩
    · rw [if_neg h]
      simp only [List.nil_append, ih]
      constructor
      · rintro ⟨m', hm', hs', hx⟩
        exact ⟨m', List.mem_cons_of_mem m hm', hs', hx⟩
      · rintro ⟨m', hm', hs', hx⟩
        rcases List.mem_cons.mp hm' with rfl | hm'
        · exact absurd (by simpa using hs' : (m'.status == StatusType.enable) = true) h
        · exact ⟨m', hm', hs', hx⟩

theorem mem_allowPermsOf (x : String) (roles : List Role) :
    x ∈ allowPermsOf roles ↔
      ∃ r ∈ roles, ∃ m ∈ r.menus,
        m.status = StatusType.enable ∧ x ∈ splitComma m.perms := by
  induction roles with
  | nil => simp [allowPermsOf]
  | cons r rs ih =>
    simp only [allowPermsOf, List.foldl_cons]
    rw [menuFold_acc]
    simp only [List.nil_append]
    rw [roleFold_acc]
    simp only [List.mem_append, mem_menuFold, ih]
    constructor
    · rintro (⟨m', hm', hs', hx⟩ | ⟨r', hr', hrest⟩)
      · exact ⟨r, List.mem_cons_self r rs, m', hm', hs', hx⟩
      · exact ⟨r', List.mem_cons_of_mem r hr', hrest⟩
    · rintro ⟨r', hr', hrest⟩
      rcases List.mem_cons.mp hr' with rfl | hr'
      · exact Or.inl hrest
      · exact Or.inr ⟨r', hr', hrest⟩

/-- C6 (amended): in role-menu mode, for a request that reaches the
permission-code check — non-superuser, staff (the management-operation
check of the source denies every non-staff request), roles with menus, no
open data-scope role, a non-empty attached code outside the exclusion set —
the gate allows exactly when the attached code is a member of the union of
comma-split permission codes of the enabled menus across the user roles;
and adding an enabled menu carrying that code to any one of the user roles
yields an allow. -/
theorem C6_role_menu_allow_iff_member (cfg : Settings)
    (enforce : String → String → String → Bool) (request : RequestModel)
    (perm : String) (j : Nat) (newMenu : Menu)
    (hmode : cfg.PERMISSION_MODE = "role-menu")
    (hpath : request.path ∉ cfg.TOKEN_REQUEST_PATH_EXCLUDE)
    (hscopes : request.auth_scopes ≠ [])
    (hsuper : request.user.is_superuser = false)
    (hroles : request.user.roles ≠ [])
    (hmenus : request.user.roles.any (fun role => role.menus.length > 0) = true)
    (hstaff : request.user.is_staff = true)
    (hscope : request.user.roles.any (fun role => role.data_scope == 1) = false)
    (hperm : request.state_permission = some perm)
    (hpe : perm ≠ "")
    (hexcl : perm ∉ cfg.RBAC_ROLE_MENU_EXCLUDE)
    (hj : j < request.user.roles.length)
    (hnm : newMenu.status = StatusType.enable)
    (hnp : perm ∈ splitComma newMenu.perms) :
    (rbac_verify cfg enforce request = .ok () ↔
      perm ∈ allowPermsOf request.user.roles) ∧
    rbac_verify cfg enforce
      ⟨request.path, request.method, request.auth_scopes,
        ⟨request.user.status, request.user.is_superuser, request.user.is_staff,
          request.user.uuid, request.user.dept_id, request.user.dept,
          request.user.roles.set j
            ⟨(request.user.roles.get ⟨j, hj⟩).status,
              (request.user.roles.get ⟨j, hj⟩).data_scope,
              newMenu :: (request.user.roles.get ⟨j, hj⟩).menus⟩⟩,
        request.state_permission⟩ = .ok () := by
  have hgen : ∀ req2 : RequestModel,
      req2.path ∉ cfg.TOKEN_REQUEST_PATH_EXCLUDE →
      req2.auth_scopes ≠ [] →
      req2.user.is_superuser = false →
      req2.user.is_staff = true →
      req2.user.roles ≠ [] →
      req2.user.roles.any (fun role => role.menus.length > 0) = true →
      req2.user.roles.any (fun role => role.data_scope == 1) = false →
      req2.state_permission = some perm →
      rbac_verify cfg enforce req2 =
        (if perm ∈ allowPermsOf req2.user.roles then Except.ok ()
         else Except.error (AppError.authorizationError none)) := by
    intro req2 hp hs hsu hst hr hme hds hsp
    unfold rbac_verify
    rw [if_neg hp, if_neg hs, if_neg (by simp [hsu]), if_neg hr,
        if_neg (fun hc => hc hme),
        if_neg (fun hc => hc.2 hst),
        if_neg (by simp [hds]),
        if_pos hmode, hsp]
    simp only []
    rw [if_neg hpe, if_neg hexcl]
  constructor
  · rw [hgen request hpath hscopes hsuper hstaff hroles hmenus hscope hperm]
    by_cases hm : perm ∈ allowPermsOf request.user.roles
    · simp [hm]
    · simp [hm]
  · set rN : Role :=
      ⟨(request.user.roles.get ⟨j, hj⟩).status,
        (request.user.roles.get ⟨j, hj⟩).data_scope,
        newMenu :: (request.user.roles.get ⟨j, hj⟩).menus⟩ with hrN
    have hmem : rN ∈ request.user.roles.set j rN :=
      List.mem_set request.user.roles j hj rN
    have hne : request.user.roles.set j rN ≠ [] := by
      intro hc
      have hlen := congrArg List.length hc
      rw [List.length_set] at hlen
      exact hroles (List.length_eq_zero.mp hlen)
    have hme : (request.user.roles.set j rN).any
        (fun role => role.menus.length > 0) = true :=
      List.any_eq_true.mpr ⟨rN, hmem, by rw [hrN]; simp⟩
    have hds : (request.user.roles.set j rN).any
        (fun role => role.data_scope == 1) = false := by
      apply Bool.eq_false_iff.mpr
      intro hc
      obtain ⟨x, hx, hp2⟩ := List.any_eq_true.mp hc
      rcases List.mem_or_eq_of_mem_set hx with hx' | rfl
      · have : request.user.roles.any (fun role => role.data_scope == 1) = true :=
          List.any_eq_true.mpr ⟨x, hx', hp2⟩
        rw [hscope] at this
        exact Bool.false_ne_true this
      · rw [hrN] at hp2
        have : request.user.roles.any (fun role => role.data_scope == 1) = true :=
          List.any_eq_true.mpr ⟨request.user.roles.get ⟨j, hj⟩,
            List.get_mem request.user.roles j hj, hp2⟩
        rw [hscope] at this
        exact Bool.false_ne_true this
    rw [hgen ⟨request.path, request.method, request.auth_scopes,
        ⟨request.user.status, request.user.is_superuser, request.user.is_staff,
          request.user.uuid, request.user.dept_id, request.user.dept,
          request.user.roles.set j rN⟩, request.state_permission⟩
        hpath hscopes hsuper hstaff hne hme hds hperm]
    rw [if_pos ((mem_allowPermsOf perm _).mpr
      ⟨rN, hmem, newMenu, by rw [hrN]; exact List.mem_cons_self _ _, hnm, hnp⟩)]

/-- Menu fixture: enabled menu carrying two permission codes. -/
def menuW : Menu := ⟨1, "sys:user:list,sys:user:add"⟩

/-- Role fixture: enabled role, closed data scope, one menu. -/
def roleW : Role := ⟨1, 0, [menuW]⟩

/-- Non-staff, non-superuser user fixture with one role and menu. -/
def userNoStaffW : User := ⟨1, false, false, "uuid-ns", none, ⟨1, false⟩, [roleW]⟩

/-- Staff, non-superuser user fixture with one role and menu. -/
def userStaffW : User := ⟨1, false, true, "uuid-st", none, ⟨1, false⟩, [roleW]⟩

/-- C6 counterexample: a non-staff user whose enabled menu carries the
attached code "sys:user:list" is nevertheless denied on a GET request (by
the management-operation guard), so as stated — without a staff condition —
"decision is allow iff the attached code is a member" is false on the
code. -/
theorem C6_counterexample :
    "sys:user:list" ∈ allowPermsOf userNoStaffW.roles ∧
    rbac_verify cfgW enforceW
      ⟨"/api/v1/users", "GET", ["authenticated"], userNoStaffW, some "sys:user:list"⟩ =
      .error (.authorizationError
        (some "This user is prohibited from backend management operations")) := by
  constructor <;> decide

/-- C6 witness: a staff user whose menus lack "sys:user:del" is denied for
that attached code, and adding an enabled menu carrying it to the user
role flips the decision to allow. -/
theorem C6_witness :
    (rbac_verify cfgW enforceW
        ⟨"/api/v1/users", "POST", ["authenticated"], userStaffW, some "sys:user:del"⟩ =
        .ok () ↔ "sys:user:del" ∈ allowPermsOf userStaffW.roles) ∧
    rbac_verify cfgW enforceW
      ⟨"/api/v1/users", "POST", ["authenticated"],
        ⟨1, false, true, "uuid-st", none, ⟨1, false⟩,
          [⟨1, 0, [⟨1, "sys:user:del"⟩, ⟨1, "sys:user:list,sys:user:add"⟩]⟩]⟩,
        some "sys:user:del"⟩ = .ok () :=
  C6_role_menu_allow_iff_member cfgW enforceW
    ⟨"/api/v1/users", "POST", ["authenticated"], userStaffW, some "sys:user:del"⟩
    "sys:user:del" 0 ⟨1, "sys:user:del"⟩
    (by decide) (by decide) (by decide) (by decide) (by decide) (by decide)
    (by decide) (by decide) (by decide) (by decide) (by decide) (by decide)
    (by decide) (by decide)

/-- C3: the management-operation check as implemented denies every
non-staff request regardless of method, because the source condition
`method != MethodType.GET or method != MethodType.OPTIONS` is a tautology;
here an OPTIONS request from a non-staff user with a role and an enabled
menu is denied with the prohibition message, although the claim says
GET/OPTIONS requests from non-staff users pass this check and proceed. -/
theorem C3_nonstaff_options_denied :
    rbac_verify cfgW enforceW
      ⟨"/api/v1/users", "OPTIONS", ["authenticated"], userNoStaffW, none⟩ =
      .error (.authorizationError
        (some "This user is prohibited from backend management operations")) := by
  decide
